import Mathlib

/-!
Shallow embedding of `src/app.py` (Uchiha AI document digitisation app).

External provider calls (`client.chat.completions.create(...)`) are modelled
by an oracle: a function from (provider name, model id, prompt) to the
outcome of that call — either a successful textual reply or a raised
exception carrying a message.  Each embedded function that performs provider
calls also returns the ordered list of provider names it actually invoked,
so "descriptor never tried" properties are observable.

Image decoding / preparation steps (PIL, pdf2image, base64) are modelled as
`Except String` values supplied by the environment: `.ok` for a successful
preparation, `.error e` for a raised exception with message `e`.
-/

/-- Outcome of one remote chat-completion call: either the reply text, or a
raised exception with message `err`. -/
inductive CallResult where
  | success (output : String)
  | failure (err : String)
deriving DecidableEq, Repr

/-- The external world: the behaviour of a provider call, keyed by provider
name, model identifier and prompt. -/
def Oracle : Type := String → String → String → CallResult

/-- The test `CallResult.isFailure r` is true when the call raised. -/
def CallResult.isFailure : CallResult → Bool
  | .success _ => false
  | .failure _ => true

/-- Streamlit session state fields used by the app
(`st.session_state` in `app.py`). -/
structure SessionState where
  summary_result : Option String
  extracted_text : Option String
  doc_category : String
  failover_active : Bool
deriving DecidableEq, Repr

/-! ## summarize_text (app.py lines 182-216) -/

/-- The `prompt_map` dictionary from `summarize_text`. -/
def prompt_map : List (String × String) :=
  [("Short Summary", "Summarize briefly in 3-5 sentences."),
   ("Detailed Summary", "Provide a comprehensive and detailed summary."),
   ("Bullet Points", "Summarize using clear bullet points.")]

/-- Python's `prompt_map.get(summary_type, summary_type)`: dictionary lookup with the
key itself as default. -/
def lookup_instruction (summary_type : String) : String :=
  match prompt_map.lookup summary_type with
  | some v => v
  | none => summary_type

/-- The prompt built by `summarize_text`. -/
def summarize_prompt (text summary_type language : String) : String :=
  "Process this doc in " ++ language ++ ". Instruction: "
    ++ lookup_instruction summary_type ++ "\n\nContent: " ++ text

/-- The summarization failover sequence (provider name, model id), ordered by
the selected primary provider (lines 192-201). -/
def summarize_sequence (primary : String) : List (String × String) :=
  if primary = "GPT-4o" then
    [("GPT-4o", "gpt-4o"), ("Groq", "llama-3.3-70b-versatile")]
  else
    [("Groq", "llama-3.3-70b-versatile"), ("GPT-4o", "gpt-4o")]

/-- Result of a `summarize_text` run: the returned string, the value of the
`failover_active` session flag after the run, and the provider names invoked
in order. -/
structure SummarizeResult where
  output : String
  failover_active : Bool
  invoked : List String
deriving DecidableEq, Repr

/-- Sentinel returned by `summarize_text` when every provider fails
(line 216). -/
def summarize_sentinel : String := "❌ All AI providers failed. Check API balance."

/-- The `for i, (name, client, model_id) in enumerate(sequence)` loop of
`summarize_text` (lines 203-214): try each descriptor in order; on success
return its output; on failure set `failover_active` when `i == 0` and
continue; on exhaustion return the sentinel. `flag` is the value of
`st.session_state.failover_active` when the loop is entered. -/
def summarize_loop (oracle : Oracle) (prompt : String) :
    List (String × String) → Nat → Bool → SummarizeResult
  | [], _, flag => ⟨summarize_sentinel, flag, []⟩
  | (name, model_id) :: rest, i, flag =>
    match oracle name model_id prompt with
    | .success out => ⟨out, flag, [name]⟩
    | .failure _ =>
      let flag' := if i = 0 then true else flag
      let r := summarize_loop oracle prompt rest (i + 1) flag'
      ⟨r.output, r.failover_active, name :: r.invoked⟩

/-- The function `summarize_text(text, summary_type, primary, language)` (lines 182-216).
`flag` is the incoming value of `st.session_state.failover_active`. -/
def summarize_text (oracle : Oracle) (text summary_type primary language : String)
    (flag : Bool) : SummarizeResult :=
  summarize_loop oracle (summarize_prompt text summary_type language)
    (summarize_sequence primary) 0 flag

/-- Whether the first descriptor of `seq` fails under `oracle` on `prompt`. -/
def first_attempt_failed (oracle : Oracle) (prompt : String)
    (seq : List (String × String)) : Bool :=
  match seq with
  | [] => false
  | (name, model_id) :: _ => (oracle name model_id prompt).isFailure

/-- The "Summarize Now" / "Send Instructions" handlers (lines 268-271 and
276-280): reset `failover_active` to `False`, then call `summarize_text` on
the extracted text and store its result. -/
def summarize_now_handler (oracle : Oracle)
    (text summary_type primary language : String) (st : SessionState) :
    SessionState :=
  let st1 := { st with failover_active := false }
  let r := summarize_text oracle text summary_type primary language st1.failover_active
  { st1 with summary_result := some r.output, failover_active := r.failover_active }

/-! ## get_routing_decision (app.py lines 61-104) -/

/-- Python's `s.strip()`: remove leading and trailing whitespace. -/
def pyStrip (s : String) : String :=
  String.mk (((s.data.dropWhile Char.isWhitespace).reverse.dropWhile
    Char.isWhitespace).reverse)

/-- Python's `s.upper()` on ASCII text: uppercase every character. -/
def pyUpper (s : String) : String :=
  String.mk (s.data.map Char.toUpper)

/-- The fixed routing prompt. -/
def routing_prompt : String :=
  "Look at this document. Is it a clean printed form (OCR) or is it handwritten/complex/messy (VISION)? Reply with ONLY the word OCR or VISION."

/-- The function `get_routing_decision(file)`: image preparation (`prep` models lines
65-74, `.ok` carrying the base64 payload), then the hardwired
GPT-4o-mini → Groq fallback; any exception reaching the outer handler
(preparation failure, or the fallback call itself raising) yields `"OCR"`.
A successful reply is returned as `reply.strip().upper()` with no
validation against the two labels. -/
def get_routing_decision (oracle : Oracle) (prep : Except String String) : String :=
  match prep with
  | .error _ => "OCR"
  | .ok _ =>
    match oracle "GPT-4o" "gpt-4o-mini" routing_prompt with
    | .success reply => pyUpper (pyStrip reply)
    | .failure _ =>
      match oracle "Groq" "meta-llama/llama-4-scout-17b-16e-instruct" routing_prompt with
      | .success reply => pyUpper (pyStrip reply)
      | .failure _ => "OCR"

/-! ## extract_text_vision (app.py lines 121-166) -/

/-- The fixed transcription prompt. -/
def vision_prompt : String :=
  "Transcribe all text from this image perfectly. Match language script (Hindi/English). Fix handwriting errors."

/-- The transcription failover sequence (lines 136-146), ordered by the
selected primary provider. -/
def vision_sequence (provider : String) : List (String × String) :=
  if provider = "GPT-4o" then
    [("GPT-4o", "gpt-4o"), ("Groq", "meta-llama/llama-4-scout-17b-16e-instruct")]
  else
    [("Groq", "meta-llama/llama-4-scout-17b-16e-instruct"), ("GPT-4o", "gpt-4o")]

/-- Result of `extract_text_vision`: the returned string and the provider
names invoked in order. -/
structure VisionResult where
  output : String
  invoked : List String
deriving DecidableEq, Repr

/-- Sentinel returned when every transcription provider fails (line 163). -/
def vision_sentinel : String := "❌ All transcription providers failed."

/-- The `for name, client, model_id in sequence` loop of
`extract_text_vision` (lines 149-163). -/
def vision_loop (oracle : Oracle) (prompt : String) :
    List (String × String) → VisionResult
  | [] => ⟨vision_sentinel, []⟩
  | (name, model_id) :: rest =>
    match oracle name model_id prompt with
    | .success out => ⟨out, [name]⟩
    | .failure _ =>
      let r := vision_loop oracle prompt rest
      ⟨r.output, name :: r.invoked⟩

/-- The function `extract_text_vision(file, provider)` (lines 121-166). `prep` models the
image decoding / base64 encoding of lines 124-133: on an exception there the
outer handler returns `"Logic Error: " + str(e)`. -/
def extract_text_vision (oracle : Oracle) (prep : Except String String)
    (provider : String) : VisionResult :=
  match prep with
  | .error e => ⟨"Logic Error: " ++ e, []⟩
  | .ok _ => vision_loop oracle vision_prompt (vision_sequence provider)

/-! ## extract_text_standard (app.py lines 106-119) -/

/-- The local environment of `extract_text_standard`: PDF page decoding
(`convert_from_bytes`), single-image decoding (`Image.open`) and local
Tesseract recognition (`pytesseract.image_to_string`), each able to raise.
Raster images are abstract handles. -/
structure OcrEnv where
  convert_pdf : Except String (List Nat)
  open_image : Except String Nat
  image_to_string : Nat → Except String String

/-- The `for img in images: text += pytesseract.image_to_string(img) + "\n"`
loop (lines 112-113), with `acc` the accumulated `text`. An exception from
recognition aborts the loop. -/
def ocr_loop (env : OcrEnv) : List Nat → String → Except String String
  | [], acc => .ok acc
  | img :: rest, acc =>
    match env.image_to_string img with
    | .ok s => ocr_loop env rest (acc ++ s ++ "\n")
    | .error e => .error e

/-- The body of the `try` block of `extract_text_standard` (lines 109-117):
PDF pages are recognised and newline-terminated in order; a non-PDF file is
opened and recognised once. -/
def standard_inner (env : OcrEnv) (isPdf : Bool) : Except String String :=
  if isPdf then
    match env.convert_pdf with
    | .ok images => ocr_loop env images ""
    | .error e => .error e
  else
    match env.open_image with
    | .ok image => env.image_to_string image
    | .error e => .error e

/-- The function `extract_text_standard(file)` (lines 106-119): returns the recognised
text, or `"OCR Error: " + str(e)` on any exception. The second component is
the list of remote provider invocations it performs (none: the body contains
no remote call). -/
def extract_text_standard (env : OcrEnv) (isPdf : Bool) : String × List String :=
  match standard_inner env isPdf with
  | .ok t => (t, [])
  | .error e => ("OCR Error: " ++ e, [])

/-! ## generate_pdf (app.py lines 218-229) -/

/-- Python's `s.replace(old, new)` for a single-character `old`, at the
character-list level: every occurrence of `c` is replaced by `r`. -/
def replaceCharL (c : Char) (r : List Char) : List Char → List Char
  | [] => []
  | a :: as => (if a = c then r else [a]) ++ replaceCharL c r as

/-- The chain `line.replace('&','&amp;').replace('<','&lt;').replace('>','&gt;')`
(line 225). -/
def escapeLineL (l : List Char) : List Char :=
  replaceCharL '>' "&gt;".toList
    (replaceCharL '<' "&lt;".toList
      (replaceCharL '&' "&amp;".toList l))

/-- String form of the line escaping of `generate_pdf`. -/
def escapeLine (line : String) : String := String.mk (escapeLineL line.data)

/-- Character-wise escaping map: the claim that escaping is the only
transformation, stated per character. -/
def escChar (a : Char) : List Char :=
  if a = '&' then "&amp;".toList
  else if a = '<' then "&lt;".toList
  else if a = '>' then "&gt;".toList
  else [a]

/-- The `story` list built by `generate_pdf` (lines 222-226): each element is
(paragraph markup text, style name). -/
def generate_pdf_story (summary_text : String) : List (String × String) :=
  [("<b>Uchiha AI – Intelligence Report</b>", "Title"), ("<br/>", "Normal")]
    ++ ((summary_text.splitOn "\n").filter (fun line => line.trim != "")).map
        (fun line => (escapeLine line, "Normal"))

/-! ## Process Document handler (app.py lines 232-250) -/

/-- Whether one character list occurs at the start of another
(helper for Python's `in` operator on strings). -/
def leadsWith : List Char → List Char → Bool
  | [], _ => true
  | _ :: _, [] => false
  | a :: as, b :: bs => a = b && leadsWith as bs

/-- Whether `needle` occurs as a contiguous run inside `haystack`
(helper for Python's `in` operator on strings). -/
def hasSub (needle : List Char) : List Char → Bool
  | [] => leadsWith needle []
  | b :: bs => leadsWith needle (b :: bs) || hasSub needle bs

/-- Python's `needle in haystack` for strings. -/
def pyIn (needle haystack : String) : Bool :=
  hasSub needle.data haystack.data

/-- Which extraction strategy the handler ran. -/
inductive ExtractionPath where
  | vision
  | standard
deriving DecidableEq, Repr

/-- The extraction dispatch of the Process Document handler (lines 238-250):
with autonomous routing on, the routing decision selects the path
(`"VISION"` → vision, anything else → standard); with it off, the manual
scanning mode (`"AI Vision" in scanning_mode`) selects it. The resulting
session state records the chosen extractor's output as the extracted text;
the path actually taken is returned alongside. -/
def process_document (oracle : Oracle) (prep_routing prep_vision : Except String String)
    (env : OcrEnv) (isPdf : Bool) (use_auto : Bool) (scanning_mode provider : String)
    (st : SessionState) : SessionState × ExtractionPath :=
  if use_auto then
    let decision := get_routing_decision oracle prep_routing
    if decision = "VISION" then
      ({ st with extracted_text := some (extract_text_vision oracle prep_vision provider).output },
       .vision)
    else
      ({ st with extracted_text := some (extract_text_standard env isPdf).1 },
       .standard)
  else
    if pyIn "AI Vision" scanning_mode then
      ({ st with extracted_text := some (extract_text_vision oracle prep_vision provider).output },
       .vision)
    else
      ({ st with extracted_text := some (extract_text_standard env isPdf).1 },
       .standard)

/-- Applying only the vision-extraction assignment of line 242 to the session
state (used to observe its effect on `failover_active`). -/
def apply_vision_extraction (oracle : Oracle) (prep : Except String String)
    (provider : String) (st : SessionState) : SessionState :=
  { st with extracted_text := some (extract_text_vision oracle prep provider).output }

/-! ## Lemmas about the summarization loop -/

/-- Once past index 0, the summarization loop never changes the flag. -/
lemma summarize_loop_flag_of_pos (oracle : Oracle) (prompt : String) :
    ∀ (seq : List (String × String)) (i : Nat) (flag : Bool), i ≠ 0 →
      (summarize_loop oracle prompt seq i flag).failover_active = flag := by
  intro seq
  induction seq with
  | nil => intro i flag _; rfl
  | cons d rest ih =>
    intro i flag hi
    obtain ⟨name, model_id⟩ := d
    simp only [summarize_loop]
    cases oracle name model_id prompt with
    | success out => rfl
    | failure e =>
      simp only [if_neg hi]
      exact ih (i + 1) flag (Nat.succ_ne_zero i)

/-- The flag after a `summarize_text`-style loop entered at index 0 is true
exactly when the first attempt failed; otherwise the incoming flag is kept. -/
lemma summarize_loop_flag (oracle : Oracle) (prompt : String)
    (seq : List (String × String)) (flag : Bool) :
    (summarize_loop oracle prompt seq 0 flag).failover_active =
      if first_attempt_failed oracle prompt seq then true else flag := by
  cases seq with
  | nil => rfl
  | cons d rest =>
    obtain ⟨name, model_id⟩ := d
    cases h : oracle name model_id prompt with
    | success out => simp [summarize_loop, first_attempt_failed, h, CallResult.isFailure]
    | failure e =>
      simp only [summarize_loop, first_attempt_failed, h, CallResult.isFailure,
        if_pos rfl, if_true]
      exact summarize_loop_flag_of_pos oracle prompt rest 1 true one_ne_zero

/-- C1. If the first descriptor of the summarization failover sequence
succeeds, `summarize_text` returns its output with only that descriptor
invoked (the second is never tried) and the flag stays false; consequently
the whole result is independent of any oracle change that preserves the
first descriptor's reply. -/
theorem summarize_text_first_success
    (oracle : Oracle) (text summary_type primary language : String)
    (n1 m1 n2 m2 out : String)
    (hseq : summarize_sequence primary = [(n1, m1), (n2, m2)])
    (hs : oracle n1 m1 (summarize_prompt text summary_type language) =
      .success out) :
    summarize_text oracle text summary_type primary language false =
      ⟨out, false, [n1]⟩
    ∧ ∀ oracle2 : Oracle,
        oracle2 n1 m1 (summarize_prompt text summary_type language) =
          oracle n1 m1 (summarize_prompt text summary_type language) →
        summarize_text oracle2 text summary_type primary language false =
          summarize_text oracle text summary_type primary language false := by
  constructor
  · simp [summarize_text, hseq, summarize_loop, hs]
  · intro oracle2 hagree
    simp [summarize_text, hseq, summarize_loop, hs, hagree.trans hs]

/-- Witness for C1 at a concrete oracle whose first provider replies "S". -/
theorem summarize_text_first_success_witness :
    summarize_text
      (fun n _ _ => if n = "GPT-4o" then CallResult.success "S" else CallResult.failure "down")
      "doc" "Short Summary" "GPT-4o" "English" false = ⟨"S", false, ["GPT-4o"]⟩ :=
  (summarize_text_first_success
    (fun n _ _ => if n = "GPT-4o" then CallResult.success "S" else CallResult.failure "down")
    "doc" "Short Summary" "GPT-4o" "English"
    "GPT-4o" "gpt-4o" "Groq" "llama-3.3-70b-versatile" "S"
    (by decide) (by decide)).1

/-- C2. If the first descriptor fails and the second succeeds,
`summarize_text` returns the second descriptor's output verbatim and the
flag ends up true (whatever it was on entry). -/
theorem summarize_text_second_success
    (oracle : Oracle) (text summary_type primary language : String) (flag : Bool)
    (n1 m1 n2 m2 e out : String)
    (hseq : summarize_sequence primary = [(n1, m1), (n2, m2)])
    (h1 : oracle n1 m1 (summarize_prompt text summary_type language) = .failure e)
    (h2 : oracle n2 m2 (summarize_prompt text summary_type language) =
      .success out) :
    summarize_text oracle text summary_type primary language flag =
      ⟨out, true, [n1, n2]⟩ := by
  simp [summarize_text, hseq, summarize_loop, h1, h2]

/-- Witness for C2: primary fails, fallback replies "S2". -/
theorem summarize_text_second_success_witness :
    summarize_text
      (fun n _ _ => if n = "Groq" then CallResult.success "S2" else CallResult.failure "down")
      "doc" "Bullet Points" "GPT-4o" "Hindi" false = ⟨"S2", true, ["GPT-4o", "Groq"]⟩ :=
  summarize_text_second_success
    (fun n _ _ => if n = "Groq" then CallResult.success "S2" else CallResult.failure "down")
    "doc" "Bullet Points" "GPT-4o" "Hindi" false
    "GPT-4o" "gpt-4o" "Groq" "llama-3.3-70b-versatile" "down" "S2"
    (by decide) (by decide) (by decide)

/-- C3. If both descriptors fail, `summarize_text` returns the
all-providers-failed sentinel string (it does not raise: the result is a
plain value) and the flag ends up true. -/
theorem summarize_text_all_fail
    (oracle : Oracle) (text summary_type primary language : String) (flag : Bool)
    (n1 m1 n2 m2 e1 e2 : String)
    (hseq : summarize_sequence primary = [(n1, m1), (n2, m2)])
    (h1 : oracle n1 m1 (summarize_prompt text summary_type language) = .failure e1)
    (h2 : oracle n2 m2 (summarize_prompt text summary_type language) = .failure e2) :
    summarize_text oracle text summary_type primary language flag =
      ⟨summarize_sentinel, true, [n1, n2]⟩ := by
  simp [summarize_text, hseq, summarize_loop, h1, h2]

/-- Witness for C3: both providers fail. -/
theorem summarize_text_all_fail_witness :
    summarize_text (fun _ _ _ => CallResult.failure "quota")
      "doc" "Detailed Summary" "Groq" "English" false =
      ⟨summarize_sentinel, true, ["Groq", "GPT-4o"]⟩ :=
  summarize_text_all_fail (fun _ _ _ => CallResult.failure "quota")
    "doc" "Detailed Summary" "Groq" "English" false
    "Groq" "llama-3.3-70b-versatile" "GPT-4o" "gpt-4o" "quota" "quota"
    (by decide) (by decide) (by decide)

/-- C4. The flag after `summarize_text` is true exactly when the first
attempt failed, and is otherwise the incoming flag unchanged (no
auto-clearing on success); the Summarize Now / Send Instructions handler is
what resets it to false before calling, so after the handler the flag equals
"first attempt failed" exactly. -/
theorem summarize_text_flag_frame
    (oracle : Oracle) (text summary_type primary language : String)
    (flag : Bool) (st : SessionState) :
    (summarize_text oracle text summary_type primary language flag).failover_active =
      (if first_attempt_failed oracle (summarize_prompt text summary_type language)
          (summarize_sequence primary) then true else flag)
    ∧ (summarize_now_handler oracle text summary_type primary language st).failover_active =
        first_attempt_failed oracle (summarize_prompt text summary_type language)
          (summarize_sequence primary) := by
  constructor
  · exact summarize_loop_flag oracle _ _ flag
  · simp only [summarize_now_handler, summarize_text]
    rw [summarize_loop_flag oracle _ _ false]
    cases first_attempt_failed oracle (summarize_prompt text summary_type language)
      (summarize_sequence primary) <;> rfl

/-- C5 counterexample: a provider reply of "maybe" makes
`get_routing_decision` return "MAYBE" — a value that is neither "OCR" nor
"VISION" — and an empty reply is returned as the empty string, not "OCR";
the code performs no validation of the reply against the two labels. -/
theorem get_routing_decision_counterexample :
    get_routing_decision (fun _ _ _ => CallResult.success "maybe") (Except.ok "img") = "MAYBE"
    ∧ ("MAYBE" ≠ "OCR" ∧ "MAYBE" ≠ "VISION")
    ∧ get_routing_decision (fun _ _ _ => CallResult.success "") (Except.ok "img") = "" := by
  exact ⟨by decide, by decide, rfl⟩

/-- C5 amended: `get_routing_decision` returns the stripped-and-uppercased
reply of the first provider call that succeeds, whatever that reply is (no
validation against the two labels); it returns "OCR" exactly when image
preparation fails or when both providers' calls fail. -/
theorem get_routing_decision_characterization (oracle : Oracle)
    (prep : Except String String) :
    (∃ e, prep = Except.error e ∧ get_routing_decision oracle prep = "OCR")
    ∨ (∃ x r, prep = Except.ok x
        ∧ oracle "GPT-4o" "gpt-4o-mini" routing_prompt = CallResult.success r
        ∧ get_routing_decision oracle prep = pyUpper (pyStrip r))
    ∨ (∃ x e r, prep = Except.ok x
        ∧ oracle "GPT-4o" "gpt-4o-mini" routing_prompt = CallResult.failure e
        ∧ oracle "Groq" "meta-llama/llama-4-scout-17b-16e-instruct" routing_prompt =
            CallResult.success r
        ∧ get_routing_decision oracle prep = pyUpper (pyStrip r))
    ∨ (∃ x e1 e2, prep = Except.ok x
        ∧ oracle "GPT-4o" "gpt-4o-mini" routing_prompt = CallResult.failure e1
        ∧ oracle "Groq" "meta-llama/llama-4-scout-17b-16e-instruct" routing_prompt =
            CallResult.failure e2
        ∧ get_routing_decision oracle prep = "OCR") := by
  cases prep with
  | error e => exact Or.inl ⟨e, rfl, rfl⟩
  | ok x =>
    cases h1 : oracle "GPT-4o" "gpt-4o-mini" routing_prompt with
    | success r =>
      exact Or.inr (Or.inl ⟨x, r, rfl, rfl, by simp [get_routing_decision, h1]⟩)
    | failure e1 =>
      cases h2 : oracle "Groq" "meta-llama/llama-4-scout-17b-16e-instruct" routing_prompt with
      | success r =>
        exact Or.inr (Or.inr (Or.inl
          ⟨x, e1, r, rfl, rfl, rfl, by simp [get_routing_decision, h1, h2]⟩))
      | failure e2 =>
        exact Or.inr (Or.inr (Or.inr
          ⟨x, e1, e2, rfl, rfl, rfl, by simp [get_routing_decision, h1, h2]⟩))

/-- C6 counterexample: with the primary transcription provider failing and
the fallback succeeding, `extract_text_vision` returns the fallback output
after invoking both providers, yet the `failover_active` flag is NOT
recorded: the extraction step leaves it false. -/
theorem extract_text_vision_flag_counterexample :
    extract_text_vision
        (fun n _ _ => if n = "Groq" then CallResult.success "T" else CallResult.failure "down")
        (Except.ok "img") "GPT-4o" = ⟨"T", ["GPT-4o", "Groq"]⟩
    ∧ (apply_vision_extraction
        (fun n _ _ => if n = "Groq" then CallResult.success "T" else CallResult.failure "down")
        (Except.ok "img") "GPT-4o" ⟨none, none, "Summary", false⟩).failover_active = false :=
  ⟨by decide, rfl⟩

/-- C6 amended: `extract_text_vision` uses the same try-in-order failover
loop shape as summarization (first failure falls through to the fallback,
whose output is returned), but it does not record the failed-before-success
signal: the `failover_active` flag is left unchanged by vision extraction
for every oracle and preparation outcome. -/
theorem extract_text_vision_failover_no_flag
    (oracle : Oracle) (x provider : String) (st : SessionState)
    (n1 m1 n2 m2 e out : String)
    (hseq : vision_sequence provider = [(n1, m1), (n2, m2)])
    (h1 : oracle n1 m1 vision_prompt = .failure e)
    (h2 : oracle n2 m2 vision_prompt = .success out) :
    extract_text_vision oracle (Except.ok x) provider = ⟨out, [n1, n2]⟩
    ∧ ∀ (oracle2 : Oracle) (prep : Except String String),
        (apply_vision_extraction oracle2 prep provider st).failover_active =
          st.failover_active := by
  constructor
  · simp [extract_text_vision, hseq, vision_loop, h1, h2]
  · intro oracle2 prep
    rfl

/-- Witness for C6's amended theorem at a concrete failing-primary oracle. -/
theorem extract_text_vision_failover_no_flag_witness :
    extract_text_vision
        (fun n _ _ => if n = "GPT-4o" then CallResult.success "V" else CallResult.failure "err")
        (Except.ok "img") "Groq" = ⟨"V", ["Groq", "GPT-4o"]⟩
    ∧ ∀ (oracle2 : Oracle) (prep : Except String String),
        (apply_vision_extraction oracle2 prep "Groq"
          ⟨none, none, "Summary", true⟩).failover_active =
        (⟨none, none, "Summary", true⟩ : SessionState).failover_active :=
  extract_text_vision_failover_no_flag
    (fun n _ _ => if n = "GPT-4o" then CallResult.success "V" else CallResult.failure "err")
    "img" "Groq" ⟨none, none, "Summary", true⟩
    "Groq" "meta-llama/llama-4-scout-17b-16e-instruct" "GPT-4o" "gpt-4o" "err" "V"
    (by decide) (by decide) (by decide)

/-- For any descriptor list, the vision loop either returns the output of
some descriptor whose call succeeded, or the sentinel with every descriptor
having failed. -/
lemma vision_loop_total (oracle : Oracle) (prompt : String) :
    ∀ seq : List (String × String),
      (∃ p ∈ seq, oracle p.1 p.2 prompt =
        CallResult.success (vision_loop oracle prompt seq).output)
      ∨ ((vision_loop oracle prompt seq).output = vision_sentinel
          ∧ ∀ p ∈ seq, (oracle p.1 p.2 prompt).isFailure = true) := by
  intro seq
  induction seq with
  | nil => exact Or.inr ⟨rfl, by simp⟩
  | cons d rest ih =>
    obtain ⟨name, model_id⟩ := d
    cases h : oracle name model_id prompt with
    | success out =>
      refine Or.inl ⟨(name, model_id), List.mem_cons_self _ _, ?_⟩
      simp [vision_loop, h]
    | failure e =>
      rcases ih with ⟨p, hp, hps⟩ | ⟨hout, hall⟩
      · refine Or.inl ⟨p, List.mem_cons_of_mem _ hp, ?_⟩
        simpa [vision_loop, h] using hps
      · refine Or.inr ⟨by simpa [vision_loop, h] using hout, ?_⟩
        intro p hp
        rcases List.mem_cons.1 hp with hpe | hpm
        · subst hpe; simp [h, CallResult.isFailure]
        · exact hall p hpm

/-- C10. `extract_text_vision` is total: its result is always a plain
string, and that string is exactly one of (a) a "Logic Error: "-prefixed
message when image preparation raised, (b) the reply of a provider in the
sequence whose call succeeded, or (c) the fixed sentinel, in which case
every provider in the sequence failed. -/
theorem extract_text_vision_total (oracle : Oracle) (prep : Except String String)
    (provider : String) :
    (∃ e, prep = Except.error e
      ∧ extract_text_vision oracle prep provider = ⟨"Logic Error: " ++ e, []⟩)
    ∨ (∃ p ∈ vision_sequence provider, oracle p.1 p.2 vision_prompt =
        CallResult.success (extract_text_vision oracle prep provider).output)
    ∨ ((extract_text_vision oracle prep provider).output = vision_sentinel
        ∧ ∀ p ∈ vision_sequence provider,
            (oracle p.1 p.2 vision_prompt).isFailure = true) := by
  cases prep with
  | error e => exact Or.inl ⟨e, rfl, rfl⟩
  | ok x =>
    rcases vision_loop_total oracle vision_prompt (vision_sequence provider) with h | h
    · exact Or.inr (Or.inl h)
    · exact Or.inr (Or.inr h)

/-- Under page-wise successful recognition, the OCR loop produces the
accumulator followed by each page's output terminated by a newline. -/
lemma ocr_loop_join (env : OcrEnv) (f : Nat → String) :
    ∀ (pages : List Nat) (acc : String),
      (∀ p ∈ pages, env.image_to_string p = Except.ok (f p)) →
      ocr_loop env pages acc =
        Except.ok (acc ++ String.join (pages.map fun p => f p ++ "\n")) := by
  intro pages
  induction pages with
  | nil =>
    intro acc _
    simp [ocr_loop, String.join, String.append_empty]
  | cons p rest ih =>
    intro acc h
    have hp := h p (List.mem_cons_self _ _)
    simp only [ocr_loop, hp]
    rw [ih (acc ++ f p ++ "\n") (fun q hq => h q (List.mem_cons_of_mem _ hq))]
    apply congrArg
    apply String.ext
    simp [String.data_append, String.data_join, List.append_assoc]

/-- C9. `extract_text_standard` performs no remote provider invocation; for
a PDF whose pages all recognise successfully it returns the per-page outputs
each terminated by a newline, concatenated in page order; and any internal
exception is returned as an "OCR Error: "-prefixed string instead of being
propagated. -/
theorem extract_text_standard_spec :
    (∀ (env : OcrEnv) (isPdf : Bool), (extract_text_standard env isPdf).2 = [])
    ∧ (∀ (env : OcrEnv) (pages : List Nat) (f : Nat → String),
        env.convert_pdf = Except.ok pages →
        (∀ p ∈ pages, env.image_to_string p = Except.ok (f p)) →
        (extract_text_standard env true).1 =
          String.join (pages.map fun p => f p ++ "\n"))
    ∧ (∀ (env : OcrEnv) (isPdf : Bool) (e : String),
        standard_inner env isPdf = Except.error e →
        (extract_text_standard env isPdf).1 = "OCR Error: " ++ e) := by
  refine ⟨fun env isPdf => ?_, fun env pages f hconv hpages => ?_, fun env isPdf e he => ?_⟩
  · cases h : standard_inner env isPdf <;> simp [extract_text_standard, h]
  · have hinner : standard_inner env true = ocr_loop env pages "" := by
      simp [standard_inner, hconv]
    rw [ocr_loop_join env f pages "" hpages, String.empty_append] at hinner
    simp [extract_text_standard, hinner]
  · simp [extract_text_standard, he]

/-- Witness for C9 at a concrete two-page environment (pages recognise to
"PG" each) and at an environment whose image decoding raises "boom". -/
theorem extract_text_standard_spec_witness :
    (extract_text_standard ⟨Except.ok [1, 2], Except.ok 0, fun _ => Except.ok "PG"⟩ true).2 = []
    ∧ (extract_text_standard ⟨Except.ok [1, 2], Except.ok 0, fun _ => Except.ok "PG"⟩ true).1 =
        String.join ([1, 2].map fun _ => "PG" ++ "\n")
    ∧ (extract_text_standard ⟨Except.ok [], Except.error "boom", fun _ => Except.error "x"⟩
        false).1 = "OCR Error: " ++ "boom" :=
  ⟨extract_text_standard_spec.1 ⟨Except.ok [1, 2], Except.ok 0, fun _ => Except.ok "PG"⟩ true,
   extract_text_standard_spec.2.1 ⟨Except.ok [1, 2], Except.ok 0, fun _ => Except.ok "PG"⟩
     [1, 2] (fun _ => "PG") rfl (fun _ _ => rfl),
   extract_text_standard_spec.2.2 ⟨Except.ok [], Except.error "boom", fun _ => Except.error "x"⟩
     false "boom" rfl⟩

/-- C7. The Process Document handler takes the vision path exactly when
autonomous routing is on and the routing decision is "VISION", or when it is
off and the manual mode mentions "AI Vision"; the chosen path's extractor
output (and only it) becomes the extracted text. -/
theorem process_document_dispatch
    (oracle : Oracle) (prep_routing prep_vision : Except String String)
    (env : OcrEnv) (isPdf use_auto : Bool) (scanning_mode provider : String)
    (st : SessionState) :
    ((process_document oracle prep_routing prep_vision env isPdf use_auto
        scanning_mode provider st).2 = ExtractionPath.vision ↔
      ((use_auto = true ∧ get_routing_decision oracle prep_routing = "VISION")
        ∨ (use_auto = false ∧ pyIn "AI Vision" scanning_mode = true)))
    ∧ ((process_document oracle prep_routing prep_vision env isPdf use_auto
          scanning_mode provider st).2 = ExtractionPath.vision →
        (process_document oracle prep_routing prep_vision env isPdf use_auto
          scanning_mode provider st).1.extracted_text =
          some (extract_text_vision oracle prep_vision provider).output)
    ∧ ((process_document oracle prep_routing prep_vision env isPdf use_auto
          scanning_mode provider st).2 = ExtractionPath.standard →
        (process_document oracle prep_routing prep_vision env isPdf use_auto
          scanning_mode provider st).1.extracted_text =
          some (extract_text_standard env isPdf).1) := by
  cases use_auto with
  | false =>
    cases hm : pyIn "AI Vision" scanning_mode <;>
      simp [process_document, hm]
  | true =>
    by_cases hd : get_routing_decision oracle prep_routing = "VISION" <;>
      simp [process_document, hd]

/-- Witness for C7: a routing reply of "VISION" with autonomous routing on
selects the vision path and stores the vision output. -/
theorem process_document_dispatch_witness :
    (process_document (fun _ _ _ => CallResult.success "VISION")
        (Except.ok "r") (Except.ok "v")
        ⟨Except.ok [], Except.ok 0, fun _ => Except.ok "PG"⟩ false true
        "Standard OCR (Printed/Fast)" "GPT-4o" ⟨none, none, "Summary", false⟩).2 =
      ExtractionPath.vision
    ∧ (process_document (fun _ _ _ => CallResult.success "VISION")
        (Except.ok "r") (Except.ok "v")
        ⟨Except.ok [], Except.ok 0, fun _ => Except.ok "PG"⟩ false true
        "Standard OCR (Printed/Fast)" "GPT-4o" ⟨none, none, "Summary", false⟩).1.extracted_text =
      some (extract_text_vision (fun _ _ _ => CallResult.success "VISION")
        (Except.ok "v") "GPT-4o").output := by
  have h := process_document_dispatch (fun _ _ _ => CallResult.success "VISION")
    (Except.ok "r") (Except.ok "v")
    ⟨Except.ok [], Except.ok 0, fun _ => Except.ok "PG"⟩ false true
    "Standard OCR (Printed/Fast)" "GPT-4o" ⟨none, none, "Summary", false⟩
  have hv : (process_document (fun _ _ _ => CallResult.success "VISION")
      (Except.ok "r") (Except.ok "v")
      ⟨Except.ok [], Except.ok 0, fun _ => Except.ok "PG"⟩ false true
      "Standard OCR (Printed/Fast)" "GPT-4o" ⟨none, none, "Summary", false⟩).2 =
      ExtractionPath.vision :=
    h.1.mpr (Or.inl ⟨rfl, by decide⟩)
  exact ⟨hv, h.2.1 hv⟩

/-- Every occurrence of `c` in an appended list is replaced piecewise. -/
lemma replaceCharL_append (c : Char) (r : List Char) (xs ys : List Char) :
    replaceCharL c r (xs ++ ys) = replaceCharL c r xs ++ replaceCharL c r ys := by
  induction xs with
  | nil => rfl
  | cons a as ih => simp [replaceCharL, ih]

/-- The three chained single-character replacements of `generate_pdf` act on
each character independently: the chain equals the character-wise escaping
map. (The replacement strings introduce `&` but never `<` or `>`, so the
later replacements never rewrite text produced by an earlier one.) -/
lemma escapeLineL_eq_flatMap : ∀ l : List Char, escapeLineL l = l.flatMap escChar := by
  intro l
  induction l with
  | nil => rfl
  | cons a as ih =>
    have h1 : replaceCharL '&' "&amp;".toList (a :: as)
        = (if a = '&' then "&amp;".toList else [a])
          ++ replaceCharL '&' "&amp;".toList as := rfl
    have hhead : replaceCharL '>' "&gt;".toList (replaceCharL '<' "&lt;".toList
        (if a = '&' then "&amp;".toList else [a])) = escChar a := by
      by_cases ha : a = '&'
      · subst ha; decide
      · by_cases hb : a = '<'
        · subst hb; decide
        · by_cases hc : a = '>'
          · subst hc; decide
          · simp [replaceCharL, escChar, ha, hb, hc]
    show replaceCharL '>' "&gt;".toList (replaceCharL '<' "&lt;".toList
      (replaceCharL '&' "&amp;".toList (a :: as))) = _
    rw [h1, replaceCharL_append, replaceCharL_append, hhead, List.flatMap_cons]
    exact congrArg (escChar a ++ ·) ih

/-- C8. The report story is the fixed title block followed by one paragraph
per input line with non-whitespace content; each kept line is escaped by the
character-wise map sending `&`, `<`, `>` to `&amp;`, `&lt;`, `&gt;` and
leaving every other character unchanged (so escaping is the only content
transformation); in particular "A & B < C" renders as "A &amp; B &lt; C". -/
theorem generate_pdf_report_spec :
    escapeLine "A & B < C" = "A &amp; B &lt; C"
    ∧ (∀ s : String, escapeLine s = String.mk (s.data.flatMap escChar))
    ∧ ∀ text : String, generate_pdf_story text =
        [("<b>Uchiha AI – Intelligence Report</b>", "Title"), ("<br/>", "Normal")]
          ++ ((text.splitOn "\n").filter (fun line => line.trim != "")).map
              (fun line => (escapeLine line, "Normal")) :=
  ⟨by decide,
   fun s => congrArg String.mk (escapeLineL_eq_flatMap s.data),
   fun _ => rfl⟩

/-- Witness for C4 at a concrete failing-primary oracle and a state whose
flag starts true: the post-call flag is true and the handler records
first-attempt-failed. -/
theorem summarize_text_flag_frame_witness :
    (summarize_text (fun n _ _ => if n = "Groq" then CallResult.success "S2" else CallResult.failure "down")
        "doc" "Short Summary" "GPT-4o" "English" true).failover_active =
      (if first_attempt_failed
          (fun n _ _ => if n = "Groq" then CallResult.success "S2" else CallResult.failure "down")
          (summarize_prompt "doc" "Short Summary" "English")
          (summarize_sequence "GPT-4o") then true else true)
    ∧ (summarize_now_handler
        (fun n _ _ => if n = "Groq" then CallResult.success "S2" else CallResult.failure "down")
        "doc" "Short Summary" "GPT-4o" "English"
        ⟨none, some "doc", "Summary", true⟩).failover_active =
      first_attempt_failed
        (fun n _ _ => if n = "Groq" then CallResult.success "S2" else CallResult.failure "down")
        (summarize_prompt "doc" "Short Summary" "English") (summarize_sequence "GPT-4o") :=
  summarize_text_flag_frame
    (fun n _ _ => if n = "Groq" then CallResult.success "S2" else CallResult.failure "down")
    "doc" "Short Summary" "GPT-4o" "English" true ⟨none, some "doc", "Summary", true⟩
